import Mathlib

/- Batteries marks `Rat` arithmetic `@[irreducible]`, which blocks `decide`
on concrete rational computations; restore default transparency for this file. -/
attribute [local semireducible] Rat.add Rat.sub Rat.mul Rat.inv

/-!
Verification development for the HeatPumpPredictor integration.

The Python sources under `custom_components/heat_pump_predictor/` are shallowly
embedded below: floats become exact rationals (`ℚ`), timestamps become rational
seconds (for the data manager) or natural minutes since an epoch (for the
forecast window logic), Python `dict` results become Lean structures, and
raised exceptions become `Except` errors.
-/

deriving instance DecidableEq for Except

namespace HeatPump

/-- `MIN_TEMP` from `const.py`. -/
def MIN_TEMP : Int := -25

/-- `MAX_TEMP` from `const.py`. -/
def MAX_TEMP : Int := 30

/-- `TemperatureBucketData` from `data_manager.py`: the stored fields of one
temperature bucket.  `last_update` is a timestamp in seconds, `none` when the
bucket was never touched. -/
structure TemperatureBucketData where
  temperature : Int
  total_energy_kwh : ℚ
  total_time_seconds : ℚ
  running_time_seconds : ℚ
  last_update : Option ℚ
deriving DecidableEq

namespace TemperatureBucketData

/-- `TemperatureBucketData.average_power_when_running`. -/
def average_power_when_running (b : TemperatureBucketData) : ℚ :=
  if b.running_time_seconds = 0 then 0
  else
    let hours := b.running_time_seconds / 3600
    if 0 < hours then b.total_energy_kwh * 1000 / hours else 0

/-- `TemperatureBucketData.average_power_overall`. -/
def average_power_overall (b : TemperatureBucketData) : ℚ :=
  if b.total_time_seconds = 0 then 0
  else
    let hours := b.total_time_seconds / 3600
    if 0 < hours then b.total_energy_kwh * 1000 / hours else 0

/-- `TemperatureBucketData.duty_cycle_percent`. -/
def duty_cycle_percent (b : TemperatureBucketData) : ℚ :=
  if b.total_time_seconds = 0 then 0
  else b.running_time_seconds / b.total_time_seconds * 100

end TemperatureBucketData

/-- The four `_last_*` tracking fields of `HeatPumpDataManager`.  In the source
they are separate nullable attributes, but they are always assigned together on
the first observation, so they are bundled behind a single `Option`. -/
structure Baseline where
  temperature : ℚ
  energy_kwh : ℚ
  running : Bool
  time : ℚ
deriving DecidableEq

/-- The mutable state of `HeatPumpDataManager`: the bucket table plus the
last-observation baseline.  The Python dict has keys `MIN_TEMP..MAX_TEMP`; all
lookups go through clamped indices, so a total function is an adequate model. -/
structure ManagerState where
  buckets : Int → TemperatureBucketData
  last : Option Baseline

/-- The freshly initialized manager (`HeatPumpDataManager.__init__`). -/
def initState : ManagerState :=
  { buckets := fun t => ⟨t, 0, 0, 0, none⟩
    last := none }

/-- `HeatPumpDataManager.get_bucket`: floor then clamp into `[MIN_TEMP, MAX_TEMP]`. -/
def get_bucket (temperature : ℚ) : Int :=
  max MIN_TEMP (min MAX_TEMP ⌊temperature⌋)

/-- `HeatPumpDataManager.process_state_update`, one observation step. -/
def process_state_update (s : ManagerState) (current_temp current_energy_kwh : ℚ)
    (is_running : Bool) (timestamp : ℚ) : ManagerState :=
  match s.last with
  | none =>
      { s with last := some ⟨current_temp, current_energy_kwh, is_running, timestamp⟩ }
  | some prev =>
      let time_delta_seconds := timestamp - prev.time
      let energy_delta_kwh := current_energy_kwh - prev.energy_kwh
      if time_delta_seconds ≤ 0 then s
      else if energy_delta_kwh < 0 then
        { s with last := some { prev with energy_kwh := current_energy_kwh } }
      else
        let bucket_temp := get_bucket prev.temperature
        let b0 := s.buckets bucket_temp
        let b1 := { b0 with total_time_seconds := b0.total_time_seconds + time_delta_seconds }
        let b2 :=
          if prev.running ∧ 0 < energy_delta_kwh then
            { b1 with
                running_time_seconds := b1.running_time_seconds + time_delta_seconds
                total_energy_kwh := b1.total_energy_kwh + energy_delta_kwh }
          else b1
        let b3 := { b2 with last_update := some timestamp }
        { buckets := fun t => if t = bucket_temp then b3 else s.buckets t
          last := some ⟨current_temp, current_energy_kwh, is_running, timestamp⟩ }

/-- Python `range(a, b)` over integers, as an ascending list. -/
def pyRange (a b : Int) : List Int :=
  (List.range (b - a).toNat).map (fun n : Nat => a + (n : Int))

/-- The result dict of `HeatPumpCalculator.estimate_power_for_temperature` /
`interpolate_estimation`.  `temperature_bucket` is the integer bucket index for
point estimates and the (possibly fractional) query for interpolated ones, so
it is kept rational. -/
structure EstimationResult where
  power_overall_w : ℚ
  power_running_w : ℚ
  duty_cycle_percent : ℚ
  temperature_bucket : ℚ
  confidence : String
  approximated : Bool
  approximation_source : Option Int
  data_points_hours : ℚ
deriving DecidableEq

/-- The `for temp in range(MIN_TEMP, MAX_TEMP + 1)` minimum search inside
`estimate_power_for_temperature`: fold over ascending bucket indices keeping
the populated bucket with strictly smallest `abs(temp - temperature)` (the
initial `min_distance = inf` is the `none` accumulator). -/
def findApproxSource (buckets : Int → TemperatureBucketData) (temperature : ℚ) :
    Option Int :=
  ((pyRange MIN_TEMP (MAX_TEMP + 1)).foldl
    (fun acc temp =>
      if 0 < (buckets temp).total_time_seconds then
        match acc with
        | none => some (temp, |(temp : ℚ) - temperature|)
        | some (src, d) =>
            if |(temp : ℚ) - temperature| < d then some (temp, |(temp : ℚ) - temperature|)
            else some (src, d)
      else acc)
    none).map Prod.fst

/-- The parametric multiplier computation of `estimate_power_for_temperature`
(`midpoint = 25` curve). -/
def approxMultiplier (source_temp : Int) (target_temp : ℚ) : ℚ :=
  let midpoint : ℚ := 25
  if target_temp ≤ midpoint then
    max (1/10) (1 - (1/5) * (target_temp - (source_temp : ℚ)))
  else
    let multiplier_at_midpoint := max (1/10) (1 - (1/5) * (midpoint - (source_temp : ℚ)))
    multiplier_at_midpoint * (1 + (1/5) * (target_temp - midpoint))

/-- `HeatPumpCalculator._calculate_confidence`. -/
def calculate_confidence (bucket_data : TemperatureBucketData) : String :=
  let hours := bucket_data.total_time_seconds / 3600
  if 24 ≤ hours then "high"
  else if 4 ≤ hours then "medium"
  else "low"

/-- `HeatPumpCalculator.estimate_power_for_temperature`; the `ValueError` on a
fully empty store becomes an `Except.error`. -/
def estimate_power_for_temperature (dm : ManagerState) (temperature : ℚ) :
    Except String EstimationResult :=
  let bucket_index := get_bucket temperature
  let bucket_data := dm.buckets bucket_index
  if bucket_data.total_time_seconds = 0 then
    match findApproxSource dm.buckets temperature with
    | none => .error "No data available to approximate temperature"
    | some source_bucket_index =>
        let source_bucket_data := dm.buckets source_bucket_index
        let multiplier := approxMultiplier source_bucket_index temperature
        .ok
          { power_overall_w := source_bucket_data.average_power_overall * multiplier
            power_running_w := source_bucket_data.average_power_when_running * multiplier
            duty_cycle_percent := source_bucket_data.duty_cycle_percent
            temperature_bucket := (bucket_index : ℚ)
            confidence := "approximated"
            approximated := true
            approximation_source := some source_bucket_index
            data_points_hours := source_bucket_data.total_time_seconds / 3600 }
  else
    .ok
      { power_overall_w := bucket_data.average_power_overall
        power_running_w := bucket_data.average_power_when_running
        duty_cycle_percent := bucket_data.duty_cycle_percent
        temperature_bucket := (bucket_index : ℚ)
        confidence := calculate_confidence bucket_data
        approximated := false
        approximation_source := none
        data_points_hours := bucket_data.total_time_seconds / 3600 }

/-- `HeatPumpCalculator._combine_confidence`. -/
def combine_confidence (conf_a conf_b : String) (approximated : Bool) : String :=
  if approximated then "approximated"
  else if conf_a = "low" ∨ conf_b = "low" then "low"
  else if conf_a = "medium" ∨ conf_b = "medium" then "medium"
  else "high"

/-- The local `_lerp` helper of `interpolate_estimation`. -/
def lerp (a b w : ℚ) : ℚ := a + (b - a) * w

/-- Python `x or y` on the `approximation_source` values: an `int` is falsy
exactly when it is `0`, `None` is falsy. -/
def pyOrSource (a b : Option Int) : Option Int :=
  match a with
  | some x => if x = 0 then b else some x
  | none => b

/-- `HeatPumpCalculator.interpolate_estimation`. -/
def interpolate_estimation (dm : ManagerState) (temperature : ℚ) :
    Except String EstimationResult :=
  let lower := max MIN_TEMP (min MAX_TEMP ⌊temperature⌋)
  let upper := max MIN_TEMP (min MAX_TEMP ⌈temperature⌉)
  if lower = upper then estimate_power_for_temperature dm temperature
  else
    match estimate_power_for_temperature dm (lower : ℚ),
        estimate_power_for_temperature dm (upper : ℚ) with
    | .error e, _ => .error e
    | _, .error e => .error e
    | .ok lower_est, .ok upper_est =>
        let weight := (temperature - (lower : ℚ)) / ((upper : ℚ) - (lower : ℚ))
        let approximated := lower_est.approximated || upper_est.approximated
        .ok
          { power_overall_w := lerp lower_est.power_overall_w upper_est.power_overall_w weight
            power_running_w := lerp lower_est.power_running_w upper_est.power_running_w weight
            duty_cycle_percent :=
              lerp lower_est.duty_cycle_percent upper_est.duty_cycle_percent weight
            temperature_bucket := temperature
            confidence := combine_confidence lower_est.confidence upper_est.confidence approximated
            approximated := approximated
            approximation_source :=
              pyOrSource lower_est.approximation_source upper_est.approximation_source
            data_points_hours := min lower_est.data_points_hours upper_est.data_points_hours }

/-- `HeatPumpCalculator.trend_adjustment`. -/
def trend_adjustment (delta : ℚ) : ℚ :=
  if delta = 0 then 1
  else
    let r := min 1 (|delta| / (3/2))
    let factor := (1/5) * r
    if delta < 0 then 1 + factor
    else max 0 (1 - factor)

/-- The coordinator's guard around `trend_adjustment` in
`async_calculate_forecast_energy` (`if delta is not None: energy *= ...`): a
null delta leaves the hourly energy unscaled, i.e. factor `1`. -/
def trendFactorOfDelta (delta : Option ℚ) : ℚ :=
  match delta with
  | none => 1
  | some d => trend_adjustment d

/-! ### Observation sequences (for the accumulation invariants) -/

/-- One sensor observation, the argument tuple of `process_state_update`. -/
structure Obs where
  temp : ℚ
  energy : ℚ
  running : Bool
  time : ℚ

/-- Feed a list of observations through `process_state_update` in order. -/
def runUpdates (s : ManagerState) (l : List Obs) : ManagerState :=
  l.foldl (fun s o => process_state_update s o.temp o.energy o.running o.time) s

/-- The `dt` values of the observations a run of `process_state_update` accepts
for bucket attribution: those arriving with a baseline present, `dt > 0` and
`dE ≥ 0` (the same guards the source checks, in the same order). -/
def acceptedDts : ManagerState → List Obs → List ℚ
  | _, [] => []
  | s, o :: rest =>
      let s' := process_state_update s o.temp o.energy o.running o.time
      match s.last with
      | none => acceptedDts s' rest
      | some prev =>
          if o.time - prev.time ≤ 0 then acceptedDts s' rest
          else if o.energy - prev.energy_kwh < 0 then acceptedDts s' rest
          else (o.time - prev.time) :: acceptedDts s' rest

/-- Sum of `total_time_seconds` over the whole bucket table. -/
def sumTotalTime (s : ManagerState) : ℚ :=
  ∑ t ∈ Finset.Icc MIN_TEMP MAX_TEMP, (s.buckets t).total_time_seconds

/-- Sum of `running_time_seconds` over the whole bucket table. -/
def sumRunningTime (s : ManagerState) : ℚ :=
  ∑ t ∈ Finset.Icc MIN_TEMP MAX_TEMP, (s.buckets t).running_time_seconds

/-- Every bucket satisfies `running_time_seconds ≤ total_time_seconds`. -/
def bucketsInv (s : ManagerState) : Prop :=
  ∀ t : Int, (s.buckets t).running_time_seconds ≤ (s.buckets t).total_time_seconds

/-! ### Persistence (serialize / rehydrate)

`coordinator.py` persists via `self.data_manager.to_dict()` and rehydrates via
`self.data_manager.from_dict(data)`, but the bodies of those two methods are
not part of the sources provided; they are modelled from the spec below. -/

/-- The per-bucket payload of the persisted nested mapping
(`temperature → {energy, total_time, running_time, last_update}`). -/
structure BucketBlobEntry where
  total_energy_kwh : ℚ
  total_time_seconds : ℚ
  running_time_seconds : ℚ
  last_update : Option ℚ
deriving DecidableEq

/-- Modelled from the spec: `HeatPumpDataManager.to_dict` (missing from the
provided sources; only its caller `coordinator._save_data` is present) —
"exposes bucket contents as a plain nested mapping for persistence", one entry
per bucket of the fixed table. -/
def to_dict (s : ManagerState) : List (Int × BucketBlobEntry) :=
  (pyRange MIN_TEMP (MAX_TEMP + 1)).map fun t =>
    (t, ⟨(s.buckets t).total_energy_kwh, (s.buckets t).total_time_seconds,
         (s.buckets t).running_time_seconds, (s.buckets t).last_update⟩)

/-- Modelled from the spec: `HeatPumpDataManager.from_dict` (missing from the
provided sources; only its caller `coordinator.async_setup` is present) — "can
be rehydrated from the same shape; unknown/missing buckets on rehydrate default
to zeroed state with no recorded baseline". -/
def from_dict (d : List (Int × BucketBlobEntry)) : ManagerState :=
  { buckets := fun t =>
      match d.find? (fun p => p.1 == t) with
      | some (_, e) =>
          ⟨t, e.total_energy_kwh, e.total_time_seconds, e.running_time_seconds, e.last_update⟩
      | none => ⟨t, 0, 0, 0, none⟩
    last := none }

/-! ### The forecast-energy service call

`coordinator.async_calculate_forecast_energy`, embedded with timestamps as
natural minutes since an epoch in local time (`hour = t / 60 % 24`); a forecast
item's unparseable / absent `datetime` or `temperature` becomes `none`. -/

/-- One raw entry of the cached `self._forecast` list.  `datetime = none`
models a missing or unparseable datetime (the entry is skipped); `temperature
= none` models a missing or non-numeric temperature. -/
structure ForecastItem where
  datetime : Option Nat
  temperature : Option ℚ
deriving DecidableEq

/-- The distinct failure conditions (`ServiceValidationError` translation keys)
of `async_calculate_forecast_energy`; `indexError` stands for the Python
`IndexError` of an out-of-bounds list access (unreachable in practice). -/
inductive ForecastError where
  | forecastUnavailable
  | forecastWindowTooSmall
  | forecastHourMissing
  | noDataForApproximation
  | indexError
deriving DecidableEq

/-- One entry of the returned `hours` detail list. -/
structure HourDetail where
  datetime : Nat
  temperature : ℚ
  temperature_delta : Option ℚ
  trend_adjustment : Option ℚ
  energy_kwh : ℚ
  confidence : String
  approximated : Bool
  approximation_source : Option Int
deriving DecidableEq

/-- The success payload of `async_calculate_forecast_energy`. -/
structure ForecastEnergyResult where
  total_energy_kwh : ℚ
  hours : List HourDetail
  hours_requested : Nat
  hours_returned : Nat
  approximated_hours : Nat
  starting_hour : Nat
deriving DecidableEq

/-- Python `round(x, 3)` (round half to even at the third decimal). -/
def round3 (q : ℚ) : ℚ :=
  let s := q * 1000
  let f := ⌊s⌋
  let frac := s - (f : ℚ)
  let r : Int :=
    if frac < 1/2 then f
    else if 1/2 < frac then f + 1
    else if f % 2 = 0 then f else f + 1
  (r : ℚ) / 1000

/-- Stable insertion keeping earlier elements before later equal-keyed ones. -/
def insertByTime (x : Nat × ForecastItem) : List (Nat × ForecastItem) → List (Nat × ForecastItem)
  | [] => [x]
  | y :: ys => if y.1 < x.1 then y :: insertByTime x ys else x :: y :: ys

/-- `parsed_forecast.sort(key=lambda pair: pair[0])`: Python's stable sort by
timestamp, as a stable insertion sort. -/
def sortByTime : List (Nat × ForecastItem) → List (Nat × ForecastItem)
  | [] => []
  | x :: xs => insertByTime x (sortByTime xs)

/-- Build `parsed_forecast`: drop entries whose datetime does not parse, pair
each surviving entry with its timestamp, sort chronologically. -/
def parsedForecast (forecast : List ForecastItem) : List (Nat × ForecastItem) :=
  sortByTime (forecast.filterMap fun it => it.datetime.map fun t => (t, it))

/-- `start_indexes[0]` together with its element: the first parsed entry not in
the past whose local hour equals `starting_hour`. -/
def findStart (parsed : List (Nat × ForecastItem)) (now starting_hour : Nat) :
    Option (Nat × Nat × ForecastItem) :=
  (parsed.enum.find? fun p => decide (now ≤ p.2.1) && decide (p.2.1 / 60 % 24 = starting_hour)).map
    fun p => (p.1, p.2)

/-- The per-hour accumulation loop of `async_calculate_forecast_energy`:
left-to-right over the window, threading `previous_temp`, the running energy
total, the approximated-hours count, and the detail list. -/
def forecastLoop (dm : ManagerState) :
    List (Nat × ForecastItem) → Option ℚ → ℚ → Nat → List HourDetail →
    Except ForecastError (ℚ × Nat × List HourDetail)
  | [], _, total, appr, details => .ok (total, appr, details)
  | (t, item) :: rest, previous_temp, total, appr, details =>
      match item.temperature with
      | none => .error .forecastHourMissing
      | some temp_float =>
          match interpolate_estimation dm temp_float with
          | .error _ => .error .noDataForApproximation
          | .ok estimation =>
              let delta := previous_temp.map fun p => temp_float - p
              let energy_kwh := estimation.power_overall_w / 1000
              let energy_kwh :=
                match delta with
                | none => energy_kwh
                | some d => energy_kwh * trend_adjustment d
              let detail : HourDetail :=
                { datetime := t
                  temperature := temp_float
                  temperature_delta := delta
                  trend_adjustment := delta.map trend_adjustment
                  energy_kwh := round3 energy_kwh
                  confidence := estimation.confidence
                  approximated := estimation.approximated
                  approximation_source := estimation.approximation_source }
              forecastLoop dm rest (some temp_float) (total + energy_kwh)
                (appr + (if estimation.approximated then 1 else 0)) (details ++ [detail])

/-- `HeatPumpCoordinator.async_calculate_forecast_energy`. -/
def async_calculate_forecast_energy (dm : ManagerState) (forecast : List ForecastItem)
    (now starting_hour hours_ahead : Nat) (current_temperature : Option ℚ) :
    Except ForecastError ForecastEnergyResult :=
  if forecast = [] then .error .forecastUnavailable
  else
    let parsed := parsedForecast forecast
    match findStart parsed now starting_hour with
    | none => .error .forecastWindowTooSmall
    | some (start_index, t0, _) =>
        let window := (parsed.drop start_index).take hours_ahead
        if window.length < hours_ahead then .error .forecastWindowTooSmall
        else
          let next_hour_start := now / 60 * 60 + 60
          let previous_temp : Except ForecastError (Option ℚ) :=
            if t0 = next_hour_start then .ok current_temperature
            else if start_index = 0 then .error .forecastWindowTooSmall
            else
              match parsed.get? (start_index - 1) with
              | none => .error .indexError
              | some (_, prev_item) =>
                  match prev_item.temperature with
                  | none => .error .forecastHourMissing
                  | some q => .ok (some q)
          match previous_temp with
          | .error e => .error e
          | .ok prev =>
              match forecastLoop dm window prev 0 0 [] with
              | .error e => .error e
              | .ok (total, appr, details) =>
                  .ok
                    { total_energy_kwh := round3 total
                      hours := details
                      hours_requested := hours_ahead
                      hours_returned := details.length
                      approximated_hours := appr
                      starting_hour := starting_hour }

/-! ### Shared concrete states for witnesses and counterexamples -/

/-- Build a store whose listed buckets carry `(energy, total_time, running_time)`
and whose other buckets are untouched. -/
def populate (l : List (Int × ℚ × ℚ × ℚ)) : ManagerState :=
  { buckets := fun t =>
      match l.find? (fun p => p.1 == t) with
      | some (_, e, tt, rt) => ⟨t, e, tt, rt, none⟩
      | none => ⟨t, 0, 0, 0, none⟩
    last := none }

/-! ### Helper lemmas -/

theorem mem_pyRange {a b t : Int} : t ∈ pyRange a b ↔ a ≤ t ∧ t < b := by
  unfold pyRange
  simp only [List.mem_map, List.mem_range]
  constructor
  · rintro ⟨n, hn, rfl⟩
    omega
  · rintro ⟨h1, h2⟩
    refine ⟨(t - a).toNat, by omega, by omega⟩

theorem get_bucket_mem (q : ℚ) : MIN_TEMP ≤ get_bucket q ∧ get_bucket q ≤ MAX_TEMP := by
  unfold get_bucket MIN_TEMP MAX_TEMP
  omega

/-! ### C2: attribution goes to the previous reading's bucket -/

/-- C2: for a non-first observation with `dt > 0` and `dE ≥ 0`, the elapsed
interval's time (and, when the previous running flag was true and `dE > 0`,
its energy and running time) is added to the bucket
`get_bucket prev.temperature` of the previous temperature reading, and every
other bucket — in particular the new reading's bucket when it differs — is
left unchanged. -/
theorem C2_previous_bucket_attribution (s : ManagerState) (prev : Baseline)
    (ct ce : ℚ) (ir : Bool) (ts : ℚ)
    (hlast : s.last = some prev)
    (hdt : 0 < ts - prev.time)
    (hdE : 0 ≤ ce - prev.energy_kwh) :
    (∀ i : Int, i ≠ get_bucket prev.temperature →
        (process_state_update s ct ce ir ts).buckets i = s.buckets i) ∧
    ((process_state_update s ct ce ir ts).buckets (get_bucket prev.temperature)).total_time_seconds
      = (s.buckets (get_bucket prev.temperature)).total_time_seconds + (ts - prev.time) ∧
    ((prev.running = true ∧ 0 < ce - prev.energy_kwh) →
      ((process_state_update s ct ce ir ts).buckets
            (get_bucket prev.temperature)).running_time_seconds
        = (s.buckets (get_bucket prev.temperature)).running_time_seconds + (ts - prev.time) ∧
      ((process_state_update s ct ce ir ts).buckets
            (get_bucket prev.temperature)).total_energy_kwh
        = (s.buckets (get_bucket prev.temperature)).total_energy_kwh + (ce - prev.energy_kwh)) ∧
    ((¬ (prev.running = true ∧ 0 < ce - prev.energy_kwh)) →
      ((process_state_update s ct ce ir ts).buckets
            (get_bucket prev.temperature)).running_time_seconds
        = (s.buckets (get_bucket prev.temperature)).running_time_seconds ∧
      ((process_state_update s ct ce ir ts).buckets
            (get_bucket prev.temperature)).total_energy_kwh
        = (s.buckets (get_bucket prev.temperature)).total_energy_kwh) := by
  have hguard1 : ¬ (ts - prev.time ≤ 0) := not_le.mpr hdt
  have hguard2 : ¬ (ce - prev.energy_kwh < 0) := not_lt.mpr hdE
  simp only [process_state_update, hlast, hguard1, if_false, hguard2]
  refine ⟨fun i hi => if_neg hi, ?_, ?_, ?_⟩
  · split_ifs <;> rfl
  · intro h
    split_ifs with hc
    · exact ⟨rfl, rfl⟩
    · simp_all
  · intro h
    split_ifs with hc
    · simp_all
    · exact ⟨rfl, rfl⟩

/-- C2 witness: readings at temperature 5 then 10 credit the first interval's
time to bucket 5 and leave bucket 10 untouched. -/
theorem C2_previous_bucket_attribution_witness :
    ((process_state_update (process_state_update initState 5 0 true 0) 10 1 true 3600).buckets
        10 = (process_state_update initState 5 0 true 0).buckets 10) ∧
    ((process_state_update (process_state_update initState 5 0 true 0) 10 1 true 3600).buckets
          5).total_time_seconds
      = ((process_state_update initState 5 0 true 0).buckets 5).total_time_seconds
          + (3600 - 0) := by
  have h := C2_previous_bucket_attribution (process_state_update initState 5 0 true 0)
    ⟨5, 0, true, 0⟩ 10 1 true 3600 (by decide) (by norm_num) (by norm_num)
  refine ⟨h.1 10 (by decide), ?_⟩
  have h2 := h.2.1
  simpa using h2

/-! ### C4: counter reset updates only the energy baseline -/

/-- A store with a recorded baseline at temperature 5, energy 10 kWh, running,
time 100 s, used to exercise the counter-reset branch. -/
def c4state : ManagerState :=
  { buckets := initState.buckets, last := some ⟨5, 10, true, 100⟩ }

/-- C4 counterexample: after a counter reset (`dE = 3 - 10 < 0`, `dt > 0`) the
baseline is NOT fully overwritten with the new observation's values: only the
energy field changes, temperature / running flag / timestamp keep their
previous values. -/
theorem C4_counterexample :
    (process_state_update c4state 7 3 false 200).last = some ⟨5, 3, true, 100⟩ ∧
    (process_state_update c4state 7 3 false 200).last ≠ some ⟨7, 3, false, 200⟩ := by
  constructor
  · decide
  · decide

/-- C4 (amended): for a non-first observation with `dt > 0` and `dE < 0`, no
bucket field changes and only the energy baseline is overwritten with the new
value; the temperature, running-flag and timestamp baselines keep their
previous values. -/
theorem C4_counter_reset_energy_only (s : ManagerState) (prev : Baseline)
    (ct ce : ℚ) (ir : Bool) (ts : ℚ)
    (hlast : s.last = some prev)
    (hdt : 0 < ts - prev.time)
    (hdE : ce - prev.energy_kwh < 0) :
    (∀ i : Int, (process_state_update s ct ce ir ts).buckets i = s.buckets i) ∧
    (process_state_update s ct ce ir ts).last
      = some ⟨prev.temperature, ce, prev.running, prev.time⟩ := by
  have hguard1 : ¬ (ts - prev.time ≤ 0) := not_le.mpr hdt
  refine ⟨fun i => ?_, ?_⟩ <;>
    simp only [process_state_update, hlast, hguard1, if_false, hdE, if_true]

/-- C4 witness: concrete instance of the amended statement. -/
theorem C4_counter_reset_energy_only_witness :
    (∀ i : Int, (process_state_update c4state 7 3 false 200).buckets i = c4state.buckets i) ∧
    (process_state_update c4state 7 3 false 200).last = some ⟨5, 3, true, 100⟩ :=
  C4_counter_reset_energy_only c4state ⟨5, 10, true, 100⟩ 7 3 false 200 rfl
    (by norm_num) (by norm_num)

/-! ### C5: time accounting and the running ≤ total invariant -/

theorem process_total_time (s : ManagerState) (prev : Baseline)
    (ct ce : ℚ) (ir : Bool) (ts : ℚ)
    (hl : s.last = some prev) (h1 : ¬ (ts - prev.time ≤ 0)) (h2 : ¬ (ce - prev.energy_kwh < 0)) :
    ∀ t : Int, ((process_state_update s ct ce ir ts).buckets t).total_time_seconds
      = (s.buckets t).total_time_seconds
        + (if t = get_bucket prev.temperature then ts - prev.time else 0) := by
  intro t
  simp only [process_state_update, hl, h1, if_false, h2]
  by_cases ht : t = get_bucket prev.temperature
  · subst ht
    simp only [if_pos rfl]
    split_ifs <;> rfl
  · simp [ht]

theorem process_running_time (s : ManagerState) (prev : Baseline)
    (ct ce : ℚ) (ir : Bool) (ts : ℚ)
    (hl : s.last = some prev) (h1 : ¬ (ts - prev.time ≤ 0)) (h2 : ¬ (ce - prev.energy_kwh < 0)) :
    ∀ t : Int, ((process_state_update s ct ce ir ts).buckets t).running_time_seconds
      = (s.buckets t).running_time_seconds
        + (if t = get_bucket prev.temperature ∧ (prev.running = true ∧ 0 < ce - prev.energy_kwh)
            then ts - prev.time else 0) := by
  intro t
  simp only [process_state_update, hl, h1, if_false, h2]
  by_cases ht : t = get_bucket prev.temperature
  · subst ht
    rw [if_pos rfl]
    split_ifs with hA hB hC
    · rfl
    · exact absurd ⟨rfl, hA⟩ hB
    · exact absurd hC.2 hA
    · exact (add_zero _).symm
  · rw [if_neg ht, if_neg (fun hc => ht hc.1)]
    exact (add_zero _).symm

theorem sumTotalTime_process (s : ManagerState) (o : Obs) :
    sumTotalTime (process_state_update s o.temp o.energy o.running o.time)
      = sumTotalTime s +
        (match s.last with
         | none => 0
         | some prev =>
             if o.time - prev.time ≤ 0 then 0
             else if o.energy - prev.energy_kwh < 0 then 0
             else o.time - prev.time) := by
  cases hl : s.last with
  | none =>
      simp only [process_state_update, hl, add_zero]
      simp [sumTotalTime]
  | some prev =>
      by_cases h1 : o.time - prev.time ≤ 0
      · simp only [process_state_update, hl, h1, if_true, add_zero]
      · by_cases h2 : o.energy - prev.energy_kwh < 0
        · simp only [process_state_update, hl, h1, if_false, h2, if_true, add_zero]
          simp [sumTotalTime]
        · have hmem : get_bucket prev.temperature ∈ Finset.Icc MIN_TEMP MAX_TEMP := by
            have h := get_bucket_mem prev.temperature
            simpa [Finset.mem_Icc] using h
          simp only [h1, if_false, h2]
          unfold sumTotalTime
          rw [Finset.sum_congr rfl
            (fun t _ => process_total_time s prev o.temp o.energy o.running o.time hl h1 h2 t)]
          rw [Finset.sum_add_distrib, Finset.sum_ite_eq' _ _ (fun _ => o.time - prev.time),
            if_pos hmem]

theorem runUpdates_sum (l : List Obs) :
    ∀ s : ManagerState, sumTotalTime (runUpdates s l) = sumTotalTime s + (acceptedDts s l).sum := by
  induction l with
  | nil => intro s; simp [runUpdates, acceptedDts]
  | cons o rest ih =>
      intro s
      have hstep := sumTotalTime_process s o
      have hrun : runUpdates s (o :: rest)
          = runUpdates (process_state_update s o.temp o.energy o.running o.time) rest := rfl
      rw [hrun, ih]
      cases hl : s.last with
      | none =>
          rw [hstep]
          simp [acceptedDts, hl]
      | some prev =>
          by_cases h1 : o.time - prev.time ≤ 0
          · rw [hstep]
            simp [acceptedDts, hl, h1]
          · by_cases h2 : o.energy - prev.energy_kwh < 0
            · rw [hstep]
              simp [acceptedDts, hl, h1, h2]
            · rw [hstep]
              simp only [acceptedDts, hl, h1, if_false, h2, List.sum_cons]
              ring

theorem process_preserves_inv (s : ManagerState) (hinv : bucketsInv s) (o : Obs) :
    bucketsInv (process_state_update s o.temp o.energy o.running o.time) := by
  cases hl : s.last with
  | none =>
      intro t
      simp only [process_state_update, hl]
      exact hinv t
  | some prev =>
      by_cases h1 : o.time - prev.time ≤ 0
      · intro t
        simp only [process_state_update, hl, h1, if_true]
        exact hinv t
      · by_cases h2 : o.energy - prev.energy_kwh < 0
        · intro t
          simp only [process_state_update, hl, h1, if_false, h2, if_true]
          exact hinv t
        · intro t
          rw [process_total_time s prev o.temp o.energy o.running o.time hl h1 h2 t,
            process_running_time s prev o.temp o.energy o.running o.time hl h1 h2 t]
          have hdt : 0 < o.time - prev.time := lt_of_not_le h1
          have hb := hinv t
          split_ifs with hc1 hc2 hc3
          · linarith
          · exact absurd hc1.1 hc2
          · linarith
          · linarith

theorem initState_inv : bucketsInv initState := fun _ => le_refl 0

/-- C5: starting from a fresh manager, for every observation sequence the sum
over all buckets of `total_time_seconds` equals the sum of the accepted
`dt` values (those with a baseline present, `dt > 0` and `dE ≥ 0`), every
bucket always satisfies `running_time_seconds ≤ total_time_seconds`, and each
individual `process_state_update` call preserves that invariant. -/
theorem C5_time_conservation :
    (∀ l : List Obs, sumTotalTime (runUpdates initState l) = (acceptedDts initState l).sum) ∧
    (∀ l : List Obs, bucketsInv (runUpdates initState l)) ∧
    (∀ s : ManagerState, bucketsInv s →
      ∀ o : Obs, bucketsInv (process_state_update s o.temp o.energy o.running o.time)) := by
  refine ⟨fun l => ?_, fun l => ?_, fun s h o => process_preserves_inv s h o⟩
  · rw [runUpdates_sum l initState]
    have h0 : sumTotalTime initState = 0 := by
      simp [sumTotalTime, initState]
    rw [h0, zero_add]
  · have hgen : ∀ (m : List Obs) (s : ManagerState), bucketsInv s → bucketsInv (runUpdates s m) := by
      intro m
      induction m with
      | nil => intro s h; exact h
      | cons o rest ih =>
          intro s h
          exact ih _ (process_preserves_inv s h o)
    exact hgen l initState initState_inv

/-- C5 witness: the preservation part applied at a concrete state and
observation. -/
theorem C5_time_conservation_witness :
    bucketsInv (process_state_update initState 5 0 true 0) :=
  C5_time_conservation.2.2 initState (fun _ => le_refl 0) ⟨5, 0, true, 0⟩

/-! ### C1: which bucket backs an approximated estimate -/

/-- The body of the minimum-search fold of `estimate_power_for_temperature`,
named so it can be reasoned about; `findApproxSource` folds exactly this. -/
def approxStep (buckets : Int → TemperatureBucketData) (temperature : ℚ)
    (acc : Option (Int × ℚ)) (temp : Int) : Option (Int × ℚ) :=
  if 0 < (buckets temp).total_time_seconds then
    match acc with
    | none => some (temp, |(temp : ℚ) - temperature|)
    | some (src, d) =>
        if |(temp : ℚ) - temperature| < d then some (temp, |(temp : ℚ) - temperature|)
        else some (src, d)
  else acc

theorem findApproxSource_eq_fold (buckets : Int → TemperatureBucketData) (q : ℚ) :
    findApproxSource buckets q
      = ((pyRange MIN_TEMP (MAX_TEMP + 1)).foldl (approxStep buckets q) none).map Prod.fst :=
  rfl

theorem foldl_approxStep_spec (buckets : Int → TemperatureBucketData) (q : ℚ) :
    ∀ (l : List Int) (acc : Option (Int × ℚ)),
      (∀ p : Int × ℚ, acc = some p →
          0 < (buckets p.1).total_time_seconds ∧ p.2 = |(p.1 : ℚ) - q|) →
      (∀ p : Int × ℚ, l.foldl (approxStep buckets q) acc = some p →
          0 < (buckets p.1).total_time_seconds ∧ p.2 = |(p.1 : ℚ) - q|) ∧
      (∀ p : Int × ℚ, acc = some p →
          ∃ p2 : Int × ℚ, l.foldl (approxStep buckets q) acc = some p2 ∧ p2.2 ≤ p.2) ∧
      (∀ u ∈ l, 0 < (buckets u).total_time_seconds →
          ∃ p2 : Int × ℚ, l.foldl (approxStep buckets q) acc = some p2 ∧ p2.2 ≤ |(u : ℚ) - q|) ∧
      (acc = none → (∀ u ∈ l, ¬ 0 < (buckets u).total_time_seconds) →
          l.foldl (approxStep buckets q) acc = none) := by
  intro l
  induction l with
  | nil =>
      intro acc hacc
      refine ⟨hacc, fun p hp => ⟨p, hp, le_refl _⟩, fun u hu => absurd hu (List.not_mem_nil u),
        fun h _ => h⟩
  | cons a rest ih =>
      intro acc hacc
      have hstep : ∀ p : Int × ℚ, approxStep buckets q acc a = some p →
          0 < (buckets p.1).total_time_seconds ∧ p.2 = |(p.1 : ℚ) - q| := by
        intro p hp
        unfold approxStep at hp
        split_ifs at hp with hpop
        · cases hc : acc with
          | none =>
              rw [hc] at hp
              simp only at hp
              cases hp
              exact ⟨hpop, rfl⟩
          | some pr =>
              rw [hc] at hp
              obtain ⟨src, d⟩ := pr
              simp only at hp
              split_ifs at hp with hlt
              · cases hp
                exact ⟨hpop, rfl⟩
              · cases hp
                exact hacc _ hc
        · exact hacc _ hp
      obtain ⟨ihSound, ihMono, ihMin, ihNone⟩ := ih (approxStep buckets q acc a) hstep
      have hmono : ∀ p : Int × ℚ, acc = some p →
          ∃ p2 : Int × ℚ, approxStep buckets q acc a = some p2 ∧ p2.2 ≤ p.2 := by
        intro p hp
        unfold approxStep
        rw [hp]
        split_ifs with hpop
        · obtain ⟨src, d⟩ := p
          simp only
          split_ifs with hlt
          · exact ⟨_, rfl, le_of_lt hlt⟩
          · exact ⟨_, rfl, le_refl _⟩
        · exact ⟨p, rfl, le_refl _⟩
      refine ⟨ihSound, ?_, ?_, ?_⟩
      · intro p hp
        obtain ⟨p1, hp1, hle1⟩ := hmono p hp
        obtain ⟨p2, hp2, hle2⟩ := ihMono p1 hp1
        exact ⟨p2, by simpa using hp2, le_trans hle2 hle1⟩
      · intro u hu hupop
        rcases List.mem_cons.mp hu with rfl | hurest
        · have hfirst : ∃ p1 : Int × ℚ, approxStep buckets q acc u = some p1 ∧
              p1.2 ≤ |(u : ℚ) - q| := by
            unfold approxStep
            rw [if_pos hupop]
            cases hc : acc with
            | none => exact ⟨_, rfl, le_refl _⟩
            | some pr =>
                obtain ⟨src, d⟩ := pr
                simp only
                split_ifs with hlt
                · exact ⟨_, rfl, le_refl _⟩
                · exact ⟨(src, d), rfl, le_of_not_lt hlt⟩
          obtain ⟨p1, hp1, hle1⟩ := hfirst
          obtain ⟨p2, hp2, hle2⟩ := ihMono p1 hp1
          exact ⟨p2, by simpa using hp2, le_trans hle2 hle1⟩
        · obtain ⟨p2, hp2, hle2⟩ := ihMin u hurest hupop
          exact ⟨p2, by simpa using hp2, hle2⟩
      · intro hnone hall
        have ha : approxStep buckets q acc a = none := by
          unfold approxStep
          rw [hnone]
          rw [if_neg (hall a (List.mem_cons_self a rest))]
        have := ihNone ha fun u hu => hall u (List.mem_cons_of_mem a hu)
        simpa using this

/-- C1 counterexample: with only buckets −5 and 20 populated and query 25
(an empty bucket), the code backs the estimate with bucket 20 — the populated
bucket closest to the query — even though bucket −5 is strictly closer to the
constant reference point 0 °C. -/
def cex1 : ManagerState := populate [(-5, 1/10, 3600, 1800), (20, 1/5, 3600, 1800)]

theorem C1_counterexample :
    (estimate_power_for_temperature cex1 25).toOption.map (fun r => r.approximation_source)
        = some (some 20) ∧
    0 < (cex1.buckets (-5)).total_time_seconds ∧
    |(-5 : ℚ) - 0| < |(20 : ℚ) - 0| ∧
    (20 : Int) ≠ -5 := by
  refine ⟨by decide, by decide, by decide, by decide⟩

/-- C1 (amended): for a query temperature whose bucket has zero recorded time,
when at least one populated bucket exists the point estimate's approximation
source is a populated bucket whose index minimizes the absolute distance to
the QUERY temperature over all populated buckets (the code computes
`abs(temp - temperature)`, not distance to the constant 0 °C). -/
theorem C1_source_nearest_query (s : ManagerState) (q : ℚ)
    (hempty : (s.buckets (get_bucket q)).total_time_seconds = 0)
    (u : Int) (hlo : MIN_TEMP ≤ u) (hhi : u ≤ MAX_TEMP)
    (hpop : 0 < (s.buckets u).total_time_seconds) :
    ∃ r : EstimationResult, ∃ src : Int,
      estimate_power_for_temperature s q = .ok r ∧
      r.approximation_source = some src ∧
      0 < (s.buckets src).total_time_seconds ∧
      ∀ v : Int, MIN_TEMP ≤ v → v ≤ MAX_TEMP → 0 < (s.buckets v).total_time_seconds →
        |(src : ℚ) - q| ≤ |(v : ℚ) - q| := by
  obtain ⟨hSound, -, hMin, -⟩ :=
    foldl_approxStep_spec s.buckets q (pyRange MIN_TEMP (MAX_TEMP + 1)) none
      (fun p hp => by cases hp)
  have humem : u ∈ pyRange MIN_TEMP (MAX_TEMP + 1) := mem_pyRange.mpr ⟨hlo, by omega⟩
  obtain ⟨p, hpfold, -⟩ := hMin u humem hpop
  have hsound := hSound p hpfold
  have hfind : findApproxSource s.buckets q = some p.1 := by
    rw [findApproxSource_eq_fold, hpfold]
    rfl
  have hminall : ∀ v : Int, MIN_TEMP ≤ v → v ≤ MAX_TEMP →
      0 < (s.buckets v).total_time_seconds → |(p.1 : ℚ) - q| ≤ |(v : ℚ) - q| := by
    intro v hvlo hvhi hvpop
    obtain ⟨p2, hp2, hle2⟩ := hMin v (mem_pyRange.mpr ⟨hvlo, by omega⟩) hvpop
    rw [hpfold] at hp2
    cases hp2
    rw [← hsound.2]
    exact hle2
  have hestim : estimate_power_for_temperature s q = .ok
      { power_overall_w := (s.buckets p.1).average_power_overall * approxMultiplier p.1 q
        power_running_w := (s.buckets p.1).average_power_when_running * approxMultiplier p.1 q
        duty_cycle_percent := (s.buckets p.1).duty_cycle_percent
        temperature_bucket := (get_bucket q : ℚ)
        confidence := "approximated"
        approximated := true
        approximation_source := some p.1
        data_points_hours := (s.buckets p.1).total_time_seconds / 3600 } := by
    unfold estimate_power_for_temperature
    rw [if_pos hempty, hfind]
  exact ⟨_, p.1, hestim, rfl, hsound.1, hminall⟩

/-- C1 witness: the amended theorem instantiated on the two-bucket store
`cex1` at query temperature 25. -/
theorem C1_source_nearest_query_witness :
    ∃ r : EstimationResult, ∃ src : Int,
      estimate_power_for_temperature cex1 25 = .ok r ∧
      r.approximation_source = some src ∧
      0 < (cex1.buckets src).total_time_seconds ∧
      ∀ v : Int, MIN_TEMP ≤ v → v ≤ MAX_TEMP → 0 < (cex1.buckets v).total_time_seconds →
        |(src : ℚ) - 25| ≤ |(v : ℚ) - 25| :=
  C1_source_nearest_query cex1 25 (by decide) 20 (by decide) (by decide) (by decide)

/-! ### C9: empty buckets never yield a non-approximated estimate -/

/-- C9: for a temperature whose bucket has zero recorded time, a point
estimate either returns `approximated = true` (never `false`), or — when no
bucket anywhere is populated — fails with the "no data available" error. -/
theorem C9_empty_bucket_approximates (s : ManagerState) (q : ℚ)
    (hempty : (s.buckets (get_bucket q)).total_time_seconds = 0) :
    (∀ r : EstimationResult, estimate_power_for_temperature s q = .ok r →
        r.approximated = true) ∧
    ((∀ v : Int, MIN_TEMP ≤ v → v ≤ MAX_TEMP → ¬ 0 < (s.buckets v).total_time_seconds) →
      estimate_power_for_temperature s q
        = .error "No data available to approximate temperature") := by
  constructor
  · intro r hr
    unfold estimate_power_for_temperature at hr
    rw [if_pos hempty] at hr
    cases hfind : findApproxSource s.buckets q with
    | none =>
        rw [hfind] at hr
        exact Except.noConfusion hr
    | some src =>
        rw [hfind] at hr
        simp only [Except.ok.injEq] at hr
        rw [← hr]
  · intro hall
    have hnone := (foldl_approxStep_spec s.buckets q (pyRange MIN_TEMP (MAX_TEMP + 1)) none
      (fun p hp => by cases hp)).2.2.2
    have hfind : findApproxSource s.buckets q = none := by
      rw [findApproxSource_eq_fold, hnone rfl ?pf]
      · rfl
      case pf =>
        intro u hu
        have hm := mem_pyRange.mp hu
        exact hall u hm.1 (by omega)
    unfold estimate_power_for_temperature
    rw [if_pos hempty, hfind]

/-- C9 witness: on the fresh (fully empty) store, estimating 5 °C fails with
the "no data available" error. -/
theorem C9_empty_bucket_approximates_witness :
    estimate_power_for_temperature initState 5
      = .error "No data available to approximate temperature" :=
  (C9_empty_bucket_approximates initState 5 (by decide)).2
    (fun v _ _ => by simp [initState])

/-! ### C10: Python `or` truthiness drops an approximation source of 0 -/

/-- Buckets 0 and 2 populated, bucket 1 empty: at query 1.5 the lower endpoint
(1 °C) is approximated from source bucket 0 while the upper endpoint (2 °C) is
exact. -/
def cex10 : ManagerState := populate [(0, 1/10, 3600, 1800), (2, 1/5, 3600, 1800)]

/-- C10: on `cex10` at temperature 1.5, the lower endpoint estimate is
approximated with source bucket 0, the upper endpoint is not approximated
(source `None`), and the interpolated result — combined with Python `or`
truthiness, under which the int 0 is falsy — reports `approximated = true` but
`approximation_source = None` rather than 0. -/
theorem C10_or_truthiness_drops_zero_source :
    (estimate_power_for_temperature cex10 1).toOption.map
        (fun r => (r.approximated, r.approximation_source)) = some (true, some 0) ∧
    (estimate_power_for_temperature cex10 2).toOption.map
        (fun r => (r.approximated, r.approximation_source)) = some (false, none) ∧
    (interpolate_estimation cex10 (3/2)).toOption.map
        (fun r => (r.approximated, r.approximation_source)) = some (true, none) ∧
    pyOrSource (some 0) none = none := by
  refine ⟨by decide, by decide, by decide, by decide⟩

/-! ### C6: linear interpolation between distinct integer endpoints -/

/-- Buckets 4, 5, 6 populated with overall powers 100 W, 170 W and 200 W. -/
def cex6 : ManagerState :=
  populate [(4, 1/10, 3600, 3600), (5, 17/100, 3600, 3600), (6, 1/5, 3600, 3600)]

/-- C6 counterexample: with bucket 4 backing 100 W and bucket 6 backing 200 W,
`interpolate_estimation` at the integer temperature 5 returns bucket 5's own
170 W (floor = ceil = 5 delegates to the point estimate), not the 150 W
midpoint of buckets 4 and 6 claimed by the spec example. -/
theorem C6_counterexample :
    (estimate_power_for_temperature cex6 4).toOption.map (fun r => r.power_overall_w)
        = some 100 ∧
    (estimate_power_for_temperature cex6 6).toOption.map (fun r => r.power_overall_w)
        = some 200 ∧
    (interpolate_estimation cex6 5).toOption.map (fun r => r.power_overall_w)
        = some 170 ∧
    (170 : ℚ) ≠ 150 := by
  refine ⟨by decide, by decide, by decide, by decide⟩

/-- C6 (amended): whenever the clamped floor and ceil endpoints differ,
`interpolate_estimation` is linear between the two endpoint estimates with
weight `(t − lower) / (upper − lower)` on power metrics and duty cycle; at an
integer temperature it instead delegates to the point estimate of that
integer, so the midpoint example must use a fractional temperature
(e.g. 4.5 between buckets 4 and 5). -/
theorem C6_linear_interpolation (s : ManagerState) (t : ℚ) (le ue : EstimationResult)
    (hne : max MIN_TEMP (min MAX_TEMP ⌊t⌋) ≠ max MIN_TEMP (min MAX_TEMP ⌈t⌉))
    (hl : estimate_power_for_temperature s ((max MIN_TEMP (min MAX_TEMP ⌊t⌋) : Int) : ℚ)
        = .ok le)
    (hu : estimate_power_for_temperature s ((max MIN_TEMP (min MAX_TEMP ⌈t⌉) : Int) : ℚ)
        = .ok ue) :
    ∃ r : EstimationResult, interpolate_estimation s t = .ok r ∧
      r.power_overall_w = le.power_overall_w
        + (ue.power_overall_w - le.power_overall_w)
          * ((t - ((max MIN_TEMP (min MAX_TEMP ⌊t⌋) : Int) : ℚ))
            / (((max MIN_TEMP (min MAX_TEMP ⌈t⌉) : Int) : ℚ)
              - ((max MIN_TEMP (min MAX_TEMP ⌊t⌋) : Int) : ℚ))) ∧
      r.power_running_w = le.power_running_w
        + (ue.power_running_w - le.power_running_w)
          * ((t - ((max MIN_TEMP (min MAX_TEMP ⌊t⌋) : Int) : ℚ))
            / (((max MIN_TEMP (min MAX_TEMP ⌈t⌉) : Int) : ℚ)
              - ((max MIN_TEMP (min MAX_TEMP ⌊t⌋) : Int) : ℚ))) ∧
      r.duty_cycle_percent = le.duty_cycle_percent
        + (ue.duty_cycle_percent - le.duty_cycle_percent)
          * ((t - ((max MIN_TEMP (min MAX_TEMP ⌊t⌋) : Int) : ℚ))
            / (((max MIN_TEMP (min MAX_TEMP ⌈t⌉) : Int) : ℚ)
              - ((max MIN_TEMP (min MAX_TEMP ⌊t⌋) : Int) : ℚ))) ∧
      r.approximated = (le.approximated || ue.approximated) := by
  unfold interpolate_estimation
  rw [if_neg hne, hl, hu]
  exact ⟨_, rfl, rfl, rfl, rfl, rfl⟩

/-- Buckets 4 and 5 populated with overall powers 100 W and 200 W. -/
def cexInterp : ManagerState := populate [(4, 1/10, 3600, 3600), (5, 1/5, 3600, 3600)]

/-- C6 witness: the amended statement at the fractional midpoint 4.5 of
buckets 4 (100 W) and 5 (200 W) yields 150 W. -/
theorem C6_linear_interpolation_witness :
    ∃ r : EstimationResult, interpolate_estimation cexInterp (9/2) = .ok r ∧
      r.power_overall_w = 150 := by
  obtain ⟨r, hr, hp, -, -, -⟩ := C6_linear_interpolation cexInterp (9/2)
    ⟨100, 100, 100, 4, "low", false, none, 1⟩ ⟨200, 200, 100, 5, "low", false, none, 1⟩
    (by decide) (by decide) (by decide)
  refine ⟨r, hr, ?_⟩
  rw [hp]
  decide

/-! ### C7: trend-adjustment factor bounds and saturation -/

/-- C7: the trend-adjustment factor is 1 for a null or zero delta, always lies
in [0.8, 1.2] (in particular for |delta| ≤ 1.5), saturates at 1.2 below
−1.5 and at 0.8 above 1.5, and is ≥ 1 for cooling (delta < 0) and ≤ 1 for
warming (delta > 0). -/
theorem C7_trend_adjustment_bounds :
    trendFactorOfDelta none = 1 ∧
    trend_adjustment 0 = 1 ∧
    (∀ d : ℚ, |d| ≤ 3/2 → 4/5 ≤ trend_adjustment d ∧ trend_adjustment d ≤ 6/5) ∧
    (∀ d : ℚ, d < -(3/2) → trend_adjustment d = 6/5) ∧
    (∀ d : ℚ, 3/2 < d → trend_adjustment d = 4/5) ∧
    (∀ d : ℚ, d < 0 → 1 ≤ trend_adjustment d) ∧
    (∀ d : ℚ, 0 < d → trend_adjustment d ≤ 1) := by
  have hbase : ∀ d : ℚ, 0 ≤ min 1 (|d| / (3/2)) ∧ min 1 (|d| / (3/2)) ≤ 1 := by
    intro d
    constructor
    · exact le_min (by norm_num) (by positivity)
    · exact min_le_left _ _
  refine ⟨rfl, by norm_num [trend_adjustment], ?_, ?_, ?_, ?_, ?_⟩
  · intro d _
    unfold trend_adjustment
    obtain ⟨h0, h1⟩ := hbase d
    split_ifs with hz hneg
    · norm_num
    · constructor <;> nlinarith
    · rw [max_eq_right (by nlinarith)]
      constructor <;> nlinarith
  · intro d hd
    unfold trend_adjustment
    rw [if_neg (by linarith), if_pos (by linarith)]
    have habs : |d| = -d := abs_of_neg (by linarith)
    rw [min_eq_left (by rw [habs]; rw [le_div_iff₀ (by norm_num)]; linarith)]
    norm_num
  · intro d hd
    unfold trend_adjustment
    rw [if_neg (by linarith), if_neg (by linarith)]
    have habs : |d| = d := abs_of_pos (by linarith)
    rw [min_eq_left (by rw [habs]; rw [le_div_iff₀ (by norm_num)]; linarith)]
    norm_num
  · intro d hd
    unfold trend_adjustment
    rw [if_neg (by linarith), if_pos hd]
    have := (hbase d).1
    nlinarith
  · intro d hd
    unfold trend_adjustment
    rw [if_neg (by linarith), if_neg (by linarith)]
    obtain ⟨h0, h1⟩ := hbase d
    rw [max_eq_right (by nlinarith)]
    nlinarith

/-- C7 witness: the bound, both saturation values and both direction facts at
concrete deltas. -/
theorem C7_trend_adjustment_bounds_witness :
    (4/5 ≤ trend_adjustment 1 ∧ trend_adjustment 1 ≤ 6/5) ∧
    trend_adjustment (-2) = 6/5 ∧
    trend_adjustment 2 = 4/5 ∧
    1 ≤ trend_adjustment (-1) ∧
    trend_adjustment 1 ≤ 1 :=
  ⟨C7_trend_adjustment_bounds.2.2.1 1 (by norm_num),
    C7_trend_adjustment_bounds.2.2.2.1 (-2) (by norm_num),
    C7_trend_adjustment_bounds.2.2.2.2.1 2 (by norm_num),
    C7_trend_adjustment_bounds.2.2.2.2.2.1 (-1) (by norm_num),
    C7_trend_adjustment_bounds.2.2.2.2.2.2 1 (by norm_num)⟩

/-! ### C3: serialize / rehydrate round trip -/

theorem to_dict_find (s : ManagerState) (t : Int)
    (h : t ∈ pyRange MIN_TEMP (MAX_TEMP + 1)) :
    (to_dict s).find? (fun p => p.1 == t)
      = some (t, ⟨(s.buckets t).total_energy_kwh, (s.buckets t).total_time_seconds,
          (s.buckets t).running_time_seconds, (s.buckets t).last_update⟩) := by
  unfold to_dict
  generalize pyRange MIN_TEMP (MAX_TEMP + 1) = l at h
  induction l with
  | nil => cases h
  | cons a rest ih =>
      by_cases hat : a = t
      · subst hat
        simp [List.find?]
      · rw [List.map_cons, List.find?_cons_of_neg _ (by simp [hat])]
        rcases List.mem_cons.mp h with rfl | hm
        · exact absurd rfl hat
        · exact ih hm

/-- C3: rehydrating the serialized bucket table reproduces every in-range
bucket's derived metrics exactly; rehydrating an empty mapping yields fully
zeroed buckets, and rehydration never restores a baseline. -/
theorem C3_roundtrip_preserves_metrics (s : ManagerState) (t : Int)
    (h1 : MIN_TEMP ≤ t) (h2 : t ≤ MAX_TEMP) :
    ((from_dict (to_dict s)).buckets t).average_power_overall
        = (s.buckets t).average_power_overall ∧
    ((from_dict (to_dict s)).buckets t).average_power_when_running
        = (s.buckets t).average_power_when_running ∧
    ((from_dict (to_dict s)).buckets t).duty_cycle_percent
        = (s.buckets t).duty_cycle_percent ∧
    (from_dict []).buckets t = ⟨t, 0, 0, 0, none⟩ ∧
    (from_dict (to_dict s)).last = none := by
  have hm : t ∈ pyRange MIN_TEMP (MAX_TEMP + 1) := mem_pyRange.mpr ⟨h1, by omega⟩
  have hb : (from_dict (to_dict s)).buckets t
      = ⟨t, (s.buckets t).total_energy_kwh, (s.buckets t).total_time_seconds,
          (s.buckets t).running_time_seconds, (s.buckets t).last_update⟩ := by
    unfold from_dict
    simp only [to_dict_find s t hm]
  rw [hb]
  exact ⟨rfl, rfl, rfl, rfl, rfl⟩

/-- C3 witness: the round trip on the two-bucket store `cexInterp` at bucket 4. -/
theorem C3_roundtrip_preserves_metrics_witness :
    ((from_dict (to_dict cexInterp)).buckets 4).average_power_overall
        = (cexInterp.buckets 4).average_power_overall ∧
    ((from_dict (to_dict cexInterp)).buckets 4).average_power_when_running
        = (cexInterp.buckets 4).average_power_when_running ∧
    ((from_dict (to_dict cexInterp)).buckets 4).duty_cycle_percent
        = (cexInterp.buckets 4).duty_cycle_percent ∧
    (from_dict []).buckets 4 = ⟨4, 0, 0, 0, none⟩ ∧
    (from_dict (to_dict cexInterp)).last = none :=
  C3_roundtrip_preserves_metrics cexInterp 4 (by decide) (by decide)

/-! ### C8: which conditions produce which forecast errors -/

theorem forecastLoop_error_cases (dm : ManagerState) :
    ∀ (w : List (Nat × ForecastItem)) (prev : Option ℚ) (total : ℚ) (appr : Nat)
      (details : List HourDetail) (e : ForecastError),
      forecastLoop dm w prev total appr details = .error e →
      e = .forecastHourMissing ∨ e = .noDataForApproximation := by
  intro w
  induction w with
  | nil =>
      intro prev total appr details e h
      exact Except.noConfusion h
  | cons a rest ih =>
      intro prev total appr details e h
      obtain ⟨t, item⟩ := a
      cases htemp : item.temperature with
      | none =>
          simp only [forecastLoop, htemp] at h
          cases h
          exact Or.inl rfl
      | some temp =>
          cases hest : interpolate_estimation dm temp with
          | error msg =>
              simp only [forecastLoop, htemp, hest] at h
              cases h
              exact Or.inr rfl
          | ok est =>
              simp only [forecastLoop, htemp, hest] at h
              exact ih _ _ _ _ _ h

/-- Three future samples at local hours 2, 3 and 4. -/
def cexForecast : List ForecastItem :=
  [⟨some 120, some 5⟩, ⟨some 180, some 6⟩, ⟨some 240, some 7⟩]

/-- C8 counterexample: a cached forecast holding 3 samples — no fewer than the
1 hour requested — still fails with the "insufficient window" condition when
no future sample's hour matches the requested starting hour (10), so that
condition does not occur "exactly when fewer samples are available than the
requested number of hours". -/
theorem C8_counterexample :
    async_calculate_forecast_energy initState cexForecast 0 10 1 none
        = .error .forecastWindowTooSmall ∧
    ¬ (cexForecast.length < 1) := by
  refine ⟨by decide, by decide⟩

/-- C8 (amended): a forecast energy query fails with the distinct
"forecast unavailable" condition exactly when the cached forecast list is
empty, and with the distinct "insufficient window" condition exactly when the
forecast is non-empty and either (a) no future parsed sample's hour matches
the requested starting hour, or (b) fewer samples than the requested hours
follow the chosen start, or (c) the window is full but starts at the very
first parsed sample while not beginning at the next top-of-hour (so no
preceding sample can seed the temperature delta); in each failing case no
result is produced. -/
theorem C8_error_conditions (dm : ManagerState) (forecast : List ForecastItem)
    (now sh ha : Nat) (ct : Option ℚ) :
    (async_calculate_forecast_energy dm forecast now sh ha ct = .error .forecastUnavailable
      ↔ forecast = []) ∧
    (async_calculate_forecast_energy dm forecast now sh ha ct = .error .forecastWindowTooSmall
      ↔ forecast ≠ [] ∧
        (findStart (parsedForecast forecast) now sh = none ∨
          ∃ si t0 it, findStart (parsedForecast forecast) now sh = some (si, t0, it) ∧
            ((((parsedForecast forecast).drop si).take ha).length < ha ∨
              (¬ (((parsedForecast forecast).drop si).take ha).length < ha ∧
                t0 ≠ now / 60 * 60 + 60 ∧ si = 0)))) := by
  by_cases hf : forecast = []
  · subst hf
    constructor
    · simp [async_calculate_forecast_energy]
    · simp [async_calculate_forecast_energy]
  · cases hfs : findStart (parsedForecast forecast) now sh with
    | none =>
        have hres : async_calculate_forecast_energy dm forecast now sh ha ct
            = .error .forecastWindowTooSmall := by
          simp only [async_calculate_forecast_energy, if_neg hf, hfs]
        rw [hres]
        refine ⟨⟨fun h => absurd h (by decide), fun h => absurd h hf⟩,
          ⟨fun _ => ⟨hf, Or.inl rfl⟩, fun _ => rfl⟩⟩
    | some trip =>
        obtain ⟨si, t0, it⟩ := trip
        by_cases hlen : (((parsedForecast forecast).drop si).take ha).length < ha
        · have hres : async_calculate_forecast_energy dm forecast now sh ha ct
              = .error .forecastWindowTooSmall := by
            simp only [async_calculate_forecast_energy, if_neg hf, hfs, if_pos hlen]
          rw [hres]
          refine ⟨⟨fun h => absurd h (by decide), fun h => absurd h hf⟩,
            ⟨fun _ => ⟨hf, Or.inr ⟨si, t0, it, rfl, Or.inl hlen⟩⟩, fun _ => rfl⟩⟩
        · -- window long enough; analyse the previous-temperature determination
          by_cases halign : t0 = now / 60 * 60 + 60
          · -- aligned: previous_temp = .ok ct, so only loop errors can occur
            have hnot : ∀ e : ForecastError,
                async_calculate_forecast_energy dm forecast now sh ha ct = .error e →
                e = .forecastHourMissing ∨ e = .noDataForApproximation := by
              intro e he
              simp only [async_calculate_forecast_energy, if_neg hf, hfs, if_neg hlen,
                if_pos halign] at he
              cases hloop : forecastLoop dm (((parsedForecast forecast).drop si).take ha) ct 0 0 []
                with
              | error e2 =>
                  rw [hloop] at he
                  cases he
                  exact forecastLoop_error_cases dm _ _ _ _ _ _ hloop
              | ok res =>
                  obtain ⟨total, appr, details⟩ := res
                  rw [hloop] at he
                  exact Except.noConfusion he
            constructor
            · constructor
              · intro h
                rcases hnot _ h with h2 | h2 <;> exact absurd h2 (by decide)
              · intro h
                exact absurd h hf
            · constructor
              · intro h
                rcases hnot _ h with h2 | h2 <;> exact absurd h2 (by decide)
              · rintro ⟨-, hcase⟩
                rcases hcase with hnone | ⟨si2, t02, it2, hfs2, hdisj⟩
                · exact Option.noConfusion hnone
                · cases hfs2
                  rcases hdisj with hd | ⟨-, hd, -⟩
                  · exact absurd hd hlen
                  · exact absurd halign hd
          · by_cases hsi : si = 0
            · have hres : async_calculate_forecast_energy dm forecast now sh ha ct
                  = .error .forecastWindowTooSmall := by
                simp only [async_calculate_forecast_energy, if_neg hf, hfs, if_neg hlen,
                  if_neg halign, if_pos hsi]
              rw [hres]
              refine ⟨⟨fun h => absurd h (by decide), fun h => absurd h hf⟩,
                ⟨fun _ => ⟨hf, Or.inr ⟨si, t0, it, rfl, Or.inr ⟨hlen, halign, hsi⟩⟩⟩,
                  fun _ => rfl⟩⟩
            · -- unaligned, si > 0: the previous sample is consulted
              have hnot : ∀ e : ForecastError,
                  async_calculate_forecast_energy dm forecast now sh ha ct = .error e →
                  e = .forecastHourMissing ∨ e = .noDataForApproximation ∨ e = .indexError := by
                intro e he
                simp only [async_calculate_forecast_energy, if_neg hf, hfs, if_neg hlen,
                  if_neg halign, if_neg hsi] at he
                cases hget : (parsedForecast forecast).get? (si - 1) with
                | none =>
                    simp only [hget] at he
                    cases he
                    exact Or.inr (Or.inr rfl)
                | some pr =>
                    obtain ⟨tprev, prev_item⟩ := pr
                    simp only [hget] at he
                    cases hpt : prev_item.temperature with
                    | none =>
                        simp only [hpt] at he
                        cases he
                        exact Or.inl rfl
                    | some qv =>
                        simp only [hpt] at he
                        cases hloop : forecastLoop dm
                            (((parsedForecast forecast).drop si).take ha) (some qv) 0 0 [] with
                        | error e2 =>
                            rw [hloop] at he
                            cases he
                            rcases forecastLoop_error_cases dm _ _ _ _ _ _ hloop with h2 | h2
                            · exact Or.inl h2
                            · exact Or.inr (Or.inl h2)
                        | ok res =>
                            obtain ⟨total, appr, details⟩ := res
                            rw [hloop] at he
                            exact Except.noConfusion he
              constructor
              · constructor
                · intro h
                  rcases hnot _ h with h2 | h2 | h2 <;> exact absurd h2 (by decide)
                · intro h
                  exact absurd h hf
              · constructor
                · intro h
                  rcases hnot _ h with h2 | h2 | h2 <;> exact absurd h2 (by decide)
                · rintro ⟨-, hcase⟩
                  rcases hcase with hnone | ⟨si2, t02, it2, hfs2, hdisj⟩
                  · exact Option.noConfusion hnone
                  · cases hfs2
                    rcases hdisj with hd | ⟨-, -, hd⟩
                    · exact absurd hd hlen
                    · exact absurd hd hsi

/-- C8 witness: the amended statement evaluated on `cexForecast` with starting
hour 10 (matching no sample) shows the "insufficient window" error, and on the
empty forecast shows the "forecast unavailable" error. -/
theorem C8_error_conditions_witness :
    async_calculate_forecast_energy initState cexForecast 0 10 1 none
        = .error .forecastWindowTooSmall ∧
    async_calculate_forecast_energy initState [] 0 10 1 none
        = .error .forecastUnavailable := by
  constructor
  · exact ((C8_error_conditions initState cexForecast 0 10 1 none).2).mpr
      ⟨by decide, Or.inl (by decide)⟩
  · exact ((C8_error_conditions initState [] 0 10 1 none).1).mpr rfl

end HeatPump
